import Mathlib

/-!
Verification of the borrowing-lifecycle engine and its error taxonomy,
shallowly embedded from the Python sources of the library-catalog service
(`app/services/borrowing_service.py`, `app/services/validation_service.py`,
`app/utils/validators.py`, `app/exceptions/base.py`,
`app/exceptions/grpc_mapping.py`, `app/exceptions/error_handler.py`,
`app/api/grpc_server.py`).
-/

namespace Library

/-- Error codes of `app/exceptions/base.py` (`class ErrorCode(Enum)`). -/
inductive ErrorCode
  | VALIDATION_ERROR
  | REQUIRED_FIELD_MISSING
  | INVALID_FORMAT
  | INVALID_LENGTH
  | INVALID_VALUE
  | RESOURCE_NOT_FOUND
  | RESOURCE_ALREADY_EXISTS
  | BUSINESS_RULE_VIOLATION
  | OPERATION_NOT_ALLOWED
  | CONFLICT
  | DATABASE_ERROR
  | INTEGRITY_CONSTRAINT_VIOLATION
  | CONNECTION_ERROR
  | TRANSACTION_ERROR
  | UNAUTHORIZED
  | FORBIDDEN
  | INVALID_CREDENTIALS
  | INTERNAL_ERROR
  | SERVICE_UNAVAILABLE
  | TIMEOUT
  | RATE_LIMIT_EXCEEDED
deriving DecidableEq, Repr

/-- gRPC status codes (the subset of `grpc.StatusCode` the service uses). -/
inductive StatusCode
  | OK
  | INVALID_ARGUMENT
  | NOT_FOUND
  | ALREADY_EXISTS
  | FAILED_PRECONDITION
  | ABORTED
  | INTERNAL
  | UNAVAILABLE
  | DEADLINE_EXCEEDED
  | RESOURCE_EXHAUSTED
  | UNAUTHENTICATED
  | PERMISSION_DENIED
deriving DecidableEq, Repr

/-- Lookup of `GRPCStatusMapper.ERROR_CODE_TO_GRPC_STATUS` in
`app/exceptions/grpc_mapping.py`; the Python dict covers every enum member,
so the `.get(…, INTERNAL)` default of the callers never fires. -/
def ERROR_CODE_TO_GRPC_STATUS : ErrorCode → StatusCode
  | .VALIDATION_ERROR => .INVALID_ARGUMENT
  | .REQUIRED_FIELD_MISSING => .INVALID_ARGUMENT
  | .INVALID_FORMAT => .INVALID_ARGUMENT
  | .INVALID_LENGTH => .INVALID_ARGUMENT
  | .INVALID_VALUE => .INVALID_ARGUMENT
  | .RESOURCE_NOT_FOUND => .NOT_FOUND
  | .RESOURCE_ALREADY_EXISTS => .ALREADY_EXISTS
  | .BUSINESS_RULE_VIOLATION => .FAILED_PRECONDITION
  | .OPERATION_NOT_ALLOWED => .FAILED_PRECONDITION
  | .CONFLICT => .ABORTED
  | .DATABASE_ERROR => .INTERNAL
  | .INTEGRITY_CONSTRAINT_VIOLATION => .INTERNAL
  | .CONNECTION_ERROR => .UNAVAILABLE
  | .TRANSACTION_ERROR => .INTERNAL
  | .UNAUTHORIZED => .UNAUTHENTICATED
  | .FORBIDDEN => .PERMISSION_DENIED
  | .INVALID_CREDENTIALS => .UNAUTHENTICATED
  | .INTERNAL_ERROR => .INTERNAL
  | .SERVICE_UNAVAILABLE => .UNAVAILABLE
  | .TIMEOUT => .DEADLINE_EXCEEDED
  | .RATE_LIMIT_EXCEEDED => .RESOURCE_EXHAUSTED

/-- Lookup of the `error_code_to_http_status` dict in
`ErrorHandler._map_to_http_status` (`app/exceptions/error_handler.py`);
again the dict covers every enum member, so the `.get(…, 500)` default
never fires. -/
def map_to_http_status : ErrorCode → Nat
  | .VALIDATION_ERROR => 400
  | .REQUIRED_FIELD_MISSING => 400
  | .INVALID_FORMAT => 400
  | .INVALID_LENGTH => 400
  | .INVALID_VALUE => 400
  | .RESOURCE_NOT_FOUND => 404
  | .RESOURCE_ALREADY_EXISTS => 409
  | .BUSINESS_RULE_VIOLATION => 422
  | .OPERATION_NOT_ALLOWED => 403
  | .CONFLICT => 409
  | .DATABASE_ERROR => 500
  | .INTEGRITY_CONSTRAINT_VIOLATION => 500
  | .CONNECTION_ERROR => 503
  | .TRANSACTION_ERROR => 500
  | .UNAUTHORIZED => 401
  | .FORBIDDEN => 403
  | .INVALID_CREDENTIALS => 401
  | .INTERNAL_ERROR => 500
  | .SERVICE_UNAVAILABLE => 503
  | .TIMEOUT => 504
  | .RATE_LIMIT_EXCEEDED => 429

/-- Modelled from the spec: the closed set of domain error kinds of the
spec's taxonomy table (section 4.2), used to compare the spec's two mapping
tables with the code's. -/
inductive SpecKind
  | validation_error
  | required_field_missing
  | invalid_format
  | invalid_length
  | invalid_value
  | resource_not_found
  | resource_already_exists
  | business_rule_violation
  | operation_not_allowed
  | conflict
  | storage_error
  | integrity_violation
  | connection_error
  | transaction_error
  | internal_error
  | service_unavailable
  | timeout_error
  | rate_limit_exceeded
deriving DecidableEq, Repr

/-- Correspondence between the spec's kind names and the code's
`ErrorCode` members (the evident renaming: storage_error is
DATABASE_ERROR, integrity_violation is INTEGRITY_CONSTRAINT_VIOLATION). -/
def SpecKind.toErrorCode : SpecKind → ErrorCode
  | .validation_error => .VALIDATION_ERROR
  | .required_field_missing => .REQUIRED_FIELD_MISSING
  | .invalid_format => .INVALID_FORMAT
  | .invalid_length => .INVALID_LENGTH
  | .invalid_value => .INVALID_VALUE
  | .resource_not_found => .RESOURCE_NOT_FOUND
  | .resource_already_exists => .RESOURCE_ALREADY_EXISTS
  | .business_rule_violation => .BUSINESS_RULE_VIOLATION
  | .operation_not_allowed => .OPERATION_NOT_ALLOWED
  | .conflict => .CONFLICT
  | .storage_error => .DATABASE_ERROR
  | .integrity_violation => .INTEGRITY_CONSTRAINT_VIOLATION
  | .connection_error => .CONNECTION_ERROR
  | .transaction_error => .TRANSACTION_ERROR
  | .internal_error => .INTERNAL_ERROR
  | .service_unavailable => .SERVICE_UNAVAILABLE
  | .timeout_error => .TIMEOUT
  | .rate_limit_exceeded => .RATE_LIMIT_EXCEEDED

/-- Modelled from the spec: the RPC-status table of section 4.2
("validation→INVALID_ARGUMENT; resource_not_found→NOT_FOUND; …"). -/
def SpecKind.rpcStatus : SpecKind → StatusCode
  | .validation_error => .INVALID_ARGUMENT
  | .required_field_missing => .INVALID_ARGUMENT
  | .invalid_format => .INVALID_ARGUMENT
  | .invalid_length => .INVALID_ARGUMENT
  | .invalid_value => .INVALID_ARGUMENT
  | .resource_not_found => .NOT_FOUND
  | .resource_already_exists => .ALREADY_EXISTS
  | .business_rule_violation => .FAILED_PRECONDITION
  | .operation_not_allowed => .FAILED_PRECONDITION
  | .conflict => .ABORTED
  | .storage_error => .INTERNAL
  | .integrity_violation => .INTERNAL
  | .connection_error => .UNAVAILABLE
  | .transaction_error => .INTERNAL
  | .internal_error => .INTERNAL
  | .service_unavailable => .UNAVAILABLE
  | .timeout_error => .DEADLINE_EXCEEDED
  | .rate_limit_exceeded => .RESOURCE_EXHAUSTED

/-- Modelled from the spec: the HTTP-status table of section 4.2
("validation kinds→400; resource_not_found→404; …"). -/
def SpecKind.httpStatus : SpecKind → Nat
  | .validation_error => 400
  | .required_field_missing => 400
  | .invalid_format => 400
  | .invalid_length => 400
  | .invalid_value => 400
  | .resource_not_found => 404
  | .resource_already_exists => 409
  | .business_rule_violation => 422
  | .operation_not_allowed => 403
  | .conflict => 409
  | .storage_error => 500
  | .integrity_violation => 500
  | .connection_error => 503
  | .transaction_error => 500
  | .internal_error => 500
  | .service_unavailable => 503
  | .timeout_error => 504
  | .rate_limit_exceeded => 429

/-- Exception value of `LibraryServiceError` (`app/exceptions/base.py`):
a message, an `ErrorCode`, a structured detail map and an optional field
name (the wrapped original exception is not tracked beyond the details). -/
structure LibraryServiceError where
  message : String
  error_code : ErrorCode
  details : List (String × String)
  field : Option String
deriving DecidableEq, Repr

/-- Python exception values the embedded code can raise: the builtin
exception types distinguished by `GRPCStatusMapper.map_generic_exception_to_grpc_status`,
an `otherError` constructor standing for any other non-domain exception
type (carrying its type name and message), and domain
`LibraryServiceError`s. -/
inductive PyExc
  | valueError (msg : String)
  | keyError (msg : String)
  | typeError (msg : String)
  | attributeError (msg : String)
  | otherError (typeName msg : String)
  | libraryError (e : LibraryServiceError)
deriving DecidableEq, Repr

/-- Result of `str(exception)` / `exception.args[0]` for the builtin
exceptions; for a `LibraryServiceError` the custom `__str__` starts with
the message (its field/details suffix is not modelled — no embedded code
path reads it). -/
def PyExc.msgOf : PyExc → String
  | .valueError m => m
  | .keyError m => m
  | .typeError m => m
  | .attributeError m => m
  | .otherError _ m => m
  | .libraryError e => e.message

/-- Result of `exception.__class__.__name__`. -/
def PyExc.typeNameOf : PyExc → String
  | .valueError _ => "ValueError"
  | .keyError _ => "KeyError"
  | .typeError _ => "TypeError"
  | .attributeError _ => "AttributeError"
  | .otherError t _ => t
  | .libraryError _ => "LibraryServiceError"

/-- Whether the exception `isinstance(…, LibraryServiceError)`. -/
def PyExc.isLibraryError : PyExc → Bool
  | .libraryError _ => true
  | _ => false

/-- Transformation step of `ErrorHandler.handle_exception`
(`app/exceptions/error_handler.py` lines 52-74): a `LibraryServiceError`
passes through; anything else is wrapped as `INTERNAL_ERROR`, keeping the
original message in the new message and the original type name in
`details["original_type"]` (logging is not modelled). -/
def handle_exception : PyExc → LibraryServiceError
  | .libraryError e => e
  | e =>
    { message := "Unexpected error: " ++ e.msgOf
      error_code := .INTERNAL_ERROR
      details := [("original_type", e.typeNameOf)]
      field := none }

/-- Function `GRPCStatusMapper.map_exception_to_grpc_status`: status from
the table (every `ErrorCode` is in the dict, so the `.get` default never
fires), details string joining message, optional `Field:` part and the
detail pairs with `" | "`. -/
def map_exception_to_grpc_status (e : LibraryServiceError) : StatusCode × String :=
  (ERROR_CODE_TO_GRPC_STATUS e.error_code,
    String.intercalate " | "
      ([e.message] ++
        (match e.field with
          | some f => ["Field: " ++ f]
          | none => []) ++
        e.details.map (fun kv => kv.1 ++ ": " ++ kv.2)))

/-- Function `GRPCStatusMapper.map_generic_exception_to_grpc_status`:
the `isinstance` chain over ValueError / KeyError / TypeError /
AttributeError, everything else mapped to INTERNAL.  (A
`LibraryServiceError` is none of the four builtins, so it takes the else
branch; the gRPC servicer never reaches this function with one.) -/
def map_generic_exception_to_grpc_status : PyExc → StatusCode × String
  | .valueError m => (.INVALID_ARGUMENT, m)
  | .keyError m => (.INVALID_ARGUMENT, "Missing required field: " ++ m)
  | .typeError m => (.INVALID_ARGUMENT, "Invalid type: " ++ m)
  | .attributeError m => (.INVALID_ARGUMENT, "Invalid attribute: " ++ m)
  | .otherError _ m => (.INTERNAL, "Internal error: " ++ m)
  | .libraryError e => (.INTERNAL, "Internal error: " ++ e.message)

/-- Record of `app/models/book.py` (engine-relevant fields). -/
structure Book where
  id : Int
  title : String
  author : String
  isbn : Option String
deriving DecidableEq, Repr

/-- Modelled from the spec: `app/models/member.py` is not among the given
sources (only its callers are); per the spec's data model a member has an
id, name, email and optional phone.  Only `id` is read by the borrowing
engine. -/
structure Member where
  id : Int
  name : String
  email : String
  phone : Option String
deriving DecidableEq, Repr

/-- Record of `app/models/borrowing.py`: `return_date` nullable, null
meaning an active loan.  Timestamps are modelled as ticks of the store's
logical clock (`datetime.utcnow()` successive values). -/
structure BorrowingRow where
  id : Int
  book_id : Int
  member_id : Int
  borrow_date : Nat
  return_date : Option Nat
deriving DecidableEq, Repr

/-- Property `Borrowing.is_active` of `app/models/borrowing.py`. -/
def BorrowingRow.is_active (r : BorrowingRow) : Bool :=
  r.return_date.isNone

/-- Relational store visible to the services: the three tables, the next
autoincrement id for borrowings and a logical clock supplying
`datetime.utcnow()` values. -/
structure Store where
  books : List Book
  members : List Member
  borrowings : List BorrowingRow
  next_id : Int
  clock : Nat
deriving DecidableEq, Repr

/-- Query `session.query(Book).filter(Book.id == bid).first()`. -/
def findBook (s : Store) (bid : Int) : Option Book :=
  s.books.find? (fun b => b.id == bid)

/-- Query `session.query(Member).filter(Member.id == mid).first()`. -/
def findMember (s : Store) (mid : Int) : Option Member :=
  s.members.find? (fun m => m.id == mid)

/-- Query `session.query(Borrowing).filter(Borrowing.book_id == bid,
Borrowing.return_date.is_(None)).first()` of `borrow_book`. -/
def findActiveForBook (rows : List BorrowingRow) (bid : Int) : Option BorrowingRow :=
  rows.find? (fun r => r.book_id == bid && r.return_date.isNone)

/-- Query `session.query(Borrowing).filter(Borrowing.book_id == bid,
Borrowing.member_id == mid, Borrowing.return_date.is_(None)).first()`
of `return_book`. -/
def findActiveLoan (rows : List BorrowingRow) (bid mid : Int) : Option BorrowingRow :=
  rows.find? (fun r => r.book_id == bid && r.member_id == mid && r.return_date.isNone)

/-- Error raised by `ValidationService.validate_data` when the pydantic
`BorrowingCreateSchema` / `BorrowingReturnSchema` check (`gt=0` plus
`validate_positive_integer` on both ids) fails: a
`app/exceptions/base.py` `ValidationError` with field `"data"`.  The exact
pydantic message text is abstracted to the failing operation's name; the
keyword-driven `error_code` refinement of `ValidationError.__init__` picks
`VALIDATION_ERROR` for these messages. -/
def schemaValidationError (op : String) : LibraryServiceError :=
  { message := "Validation failed: " ++ op ++ ": ids must be positive integers"
    error_code := .VALIDATION_ERROR
    details := [("validation_errors", op)]
    field := some "data" }

/-- Function `BorrowingService.borrow_book`
(`app/services/borrowing_service.py` lines 23-81): validate both ids
positive, fetch book (`ValueError "Book not found"` if absent), fetch
member (`ValueError "Member not found"` if absent), check for an active
borrowing of the book (`ValueError "Book is already borrowed"` if found),
else insert a fresh row with `borrow_date = now()` and null
`return_date` and commit. -/
def borrow_book (book_id member_id : Int) (s : Store) :
    Except PyExc (BorrowingRow × Store) :=
  if book_id ≤ 0 ∨ member_id ≤ 0 then
    .error (.libraryError (schemaValidationError "borrow_book"))
  else
    match findBook s book_id with
    | none => .error (.valueError "Book not found")
    | some _ =>
      match findMember s member_id with
      | none => .error (.valueError "Member not found")
      | some _ =>
        match findActiveForBook s.borrowings book_id with
        | some _ => .error (.valueError "Book is already borrowed")
        | none =>
          let row : BorrowingRow :=
            { id := s.next_id, book_id := book_id, member_id := member_id
              borrow_date := s.clock, return_date := none }
          .ok (row,
            { s with borrowings := s.borrowings ++ [row]
                     next_id := s.next_id + 1
                     clock := s.clock + 1 })

/-- Update step of `return_book`: set `return_date = t` on the first row
matching `(book_id, member_id, return_date is null)` — the row
`session.query(...).first()` found — leaving every other row unchanged. -/
def markReturned (rows : List BorrowingRow) (bid mid : Int) (t : Nat) :
    List BorrowingRow :=
  match rows with
  | [] => []
  | r :: rest =>
    if r.book_id == bid && r.member_id == mid && r.return_date.isNone then
      { r with return_date := some t } :: rest
    else
      r :: markReturned rest bid mid t

/-- Function `BorrowingService.return_book`
(`app/services/borrowing_service.py` lines 83-125): validate both ids
positive, fetch the active borrowing for the (book, member) pair
(`ValueError "No active borrowing found for this book and member"` if
absent), else set its `return_date = now()`, commit and return the
updated row. -/
def return_book (book_id member_id : Int) (s : Store) :
    Except PyExc (BorrowingRow × Store) :=
  if book_id ≤ 0 ∨ member_id ≤ 0 then
    .error (.libraryError (schemaValidationError "return_book"))
  else
    match findActiveLoan s.borrowings book_id member_id with
    | none => .error (.valueError "No active borrowing found for this book and member")
    | some r =>
      .ok ({ r with return_date := some s.clock },
        { s with borrowings := markReturned s.borrowings book_id member_id s.clock
                 clock := s.clock + 1 })

/-- Servicer method `LibraryServiceServicer.BorrowBook`
(`app/api/grpc_server.py` lines 165-195): on success the borrowing; on a
`LibraryServiceError` the status/details of
`map_exception_to_grpc_status`; on any other exception the status/details
of `map_generic_exception_to_grpc_status` applied to the raw exception
(the wrapped result of `error_handler.handle_grpc_exception` is computed
for logging but discarded).  The store is returned unchanged on every
error path. -/
def BorrowBook (book_id member_id : Int) (s : Store) :
    Except (StatusCode × String) BorrowingRow × Store :=
  match borrow_book book_id member_id s with
  | .ok (r, s2) => (.ok r, s2)
  | .error (.libraryError e) => (.error (map_exception_to_grpc_status e), s)
  | .error e => (.error (map_generic_exception_to_grpc_status e), s)

/-- Servicer method `LibraryServiceServicer.ReturnBook`
(`app/api/grpc_server.py` lines 197-218): a `ValueError` maps to
INVALID_ARGUMENT with `str(e)` as details; any other exception maps to
INTERNAL with a `"Failed to return book: "` prefix. -/
def ReturnBook (book_id member_id : Int) (s : Store) :
    Except (StatusCode × String) BorrowingRow × Store :=
  match return_book book_id member_id s with
  | .ok (r, s2) => (.ok r, s2)
  | .error (.valueError m) => (.error (.INVALID_ARGUMENT, m), s)
  | .error e => (.error (.INTERNAL, "Failed to return book: " ++ e.msgOf), s)

/-- Operations of the borrowing engine that mutate the store, for stating
reachability (any sequence of borrow and return calls). -/
inductive Op
  | borrow (book_id member_id : Int)
  | giveBack (book_id member_id : Int)
deriving DecidableEq, Repr

/-- Effect of one engine call on the store: the committed store on
success, the unchanged store when the call raises. -/
def applyOp (s : Store) : Op → Store
  | .borrow b m =>
    match borrow_book b m s with
    | .ok (_, s2) => s2
    | .error _ => s
  | .giveBack b m =>
    match return_book b m s with
    | .ok (_, s2) => s2
    | .error _ => s

/-- State of the store after a sequence of borrow/return calls. -/
def runOps (s : Store) (ops : List Op) : Store :=
  ops.foldl applyOp s

/-- Number of active (unreturned) Borrowing rows for a given book. -/
def activeCount (rows : List BorrowingRow) (bid : Int) : Nat :=
  (rows.filter (fun r => r.book_id == bid && r.return_date.isNone)).length

/-- All Borrowing rows for a given (book, member) pair, active or not. -/
def rowsFor (rows : List BorrowingRow) (bid mid : Int) : List BorrowingRow :=
  rows.filter (fun r => r.book_id == bid && r.member_id == mid)

/-- Number of active Borrowing rows for a given (book, member) pair. -/
def activeLoanCount (rows : List BorrowingRow) (bid mid : Int) : Nat :=
  (rows.filter (fun r => r.book_id == bid && r.member_id == mid && r.return_date.isNone)).length

/-- Concrete store for exercising the theorems: one book, two members,
no borrowings yet. -/
def demoStore : Store :=
  { books := [{ id := 1, title := "Dune", author := "Herbert", isbn := none }]
    members := [{ id := 1, name := "Ada", email := "ada@example.com", phone := none },
                { id := 2, name := "Bob", email := "bob@example.com", phone := none }]
    borrowings := []
    next_id := 1
    clock := 0 }

/-- Row created by the first borrow against `demoStore`. -/
def demoRow : BorrowingRow :=
  { id := 1, book_id := 1, member_id := 1, borrow_date := 0, return_date := none }

/-- Store after the first borrow against `demoStore`. -/
def demoStore2 : Store :=
  { demoStore with borrowings := [demoRow], next_id := 2, clock := 1 }

/-- Store already holding one historical, returned Borrowing row for the
pair (1, 1): book 1 and members 1, 2 exist and no loan is active. -/
def histStore : Store :=
  { books := [{ id := 1, title := "Dune", author := "Herbert", isbn := none }]
    members := [{ id := 1, name := "Ada", email := "ada@example.com", phone := none },
                { id := 2, name := "Bob", email := "bob@example.com", phone := none }]
    borrowings := [{ id := 1, book_id := 1, member_id := 1, borrow_date := 0, return_date := some 0 }]
    next_id := 2
    clock := 1 }

/-- Store after `borrow(1, 1)` against `histStore`. -/
def histStore2 : Store :=
  { histStore with
      borrowings := histStore.borrowings ++
        [{ id := 2, book_id := 1, member_id := 1, borrow_date := 1, return_date := none }]
      next_id := 3
      clock := 2 }

/-- Store after `return(1, 1)` against `histStore2`. -/
def histStore3 : Store :=
  { histStore2 with
      borrowings := [{ id := 1, book_id := 1, member_id := 1, borrow_date := 0, return_date := some 0 },
                     { id := 2, book_id := 1, member_id := 1, borrow_date := 1, return_date := some 2 }]
      clock := 3 }

/-- Error value of `app/utils/validators.py` `ValidationError` (a plain
exception, distinct from the domain `ValidationError` of
`app/exceptions/base.py`): message, optional field name and optional
rejected value (held as its string rendering). -/
structure UtilValidationError where
  message : String
  field : Option String
  value : Option String
deriving DecidableEq, Repr

/-- Characters removed by `re.sub(r'[-\s]', '', isbn)`: the hyphen and
Python whitespace. -/
def pyIsbnStrip (c : Char) : Bool :=
  c = '-' || c = ' ' || c = '\t' || c = '\n' || c = '\r' || c = '\x0b' || c = '\x0c'

/-- Cleaned ISBN string of `validate_isbn`. -/
def cleanedIsbn (isbn : String) : String :=
  String.mk (isbn.toList.filter (fun c => !(pyIsbnStrip c)))

/-- Result of Python `str.isdigit()` (ASCII digits; the empty string is
not a digit string). -/
def strIsDigit (l : List Char) : Bool :=
  !l.isEmpty && l.all Char.isDigit

/-- Numeric value of a digit character, `int(c)`. -/
def digitVal (c : Char) : Nat :=
  c.toNat - '0'.toNat

/-- Format condition of `validate_isbn` line 42 for a 10-character
cleaned string: all digits, or the first nine digits and the last in
`'0123456789X'`.  (The source writes the failure side
`not A and not B`; this is its De Morgan complement.) -/
def isbn10FormatOk (l : List Char) : Bool :=
  strIsDigit l ||
    (strIsDigit l.dropLast && (l.getLast?).elim false (fun c => c.isDigit || c = 'X'))

/-- Function `_validate_isbn10_check_digit` of `app/utils/validators.py`:
check value 10 for a final `X` else the final digit;
`total = sum(int(isbn[i]) * (10 - i) for i in range(9))`;
accept when `(total + check) % 11 == 0`. -/
def isbn10CheckDigitOk (l : List Char) : Bool :=
  if l.length ≠ 10 then false
  else
    let lastChar := l.getD 9 ' '
    let check := if lastChar = 'X' then 10 else digitVal lastChar
    (((List.range 9).foldl (fun total i => total + digitVal (l.getD i ' ') * (10 - i)) 0)
      + check) % 11 == 0

/-- Function `_validate_isbn13_check_digit` of `app/utils/validators.py`:
weights 1 for even positions and 3 for odd ones over the first twelve
digits; the final digit must equal `(10 - total % 10) % 10`. -/
def isbn13CheckDigitOk (l : List Char) : Bool :=
  if l.length ≠ 13 then false
  else
    let total := (List.range 12).foldl
      (fun total i => total + digitVal (l.getD i ' ') * (if i % 2 = 0 then 1 else 3)) 0
    digitVal (l.getD 12 ' ') == (10 - total % 10) % 10

/-- Function `validate_isbn` of `app/utils/validators.py`: an empty
string passes through unchanged; otherwise hyphens/whitespace are
stripped and the cleaned string must be a checksum-valid ISBN-10 or
ISBN-13, returned in cleaned form. -/
def validate_isbn (isbn : String) : Except UtilValidationError String :=
  if isbn = "" then .ok isbn
  else if (cleanedIsbn isbn).length = 10 then
    if !(isbn10FormatOk (cleanedIsbn isbn).toList) then
      .error { message := "ISBN-10 must contain only digits and optionally end with \x27X\x27"
               field := some "isbn", value := some isbn }
    else if !(isbn10CheckDigitOk (cleanedIsbn isbn).toList) then
      .error { message := "Invalid ISBN-10 check digit"
               field := some "isbn", value := some isbn }
    else .ok (cleanedIsbn isbn)
  else if (cleanedIsbn isbn).length = 13 then
    if !(strIsDigit (cleanedIsbn isbn).toList) then
      .error { message := "ISBN-13 must contain only digits"
               field := some "isbn", value := some isbn }
    else if !(isbn13CheckDigitOk (cleanedIsbn isbn).toList) then
      .error { message := "Invalid ISBN-13 check digit"
               field := some "isbn", value := some isbn }
    else .ok (cleanedIsbn isbn)
  else
    .error { message := "ISBN must be 10 or 13 digits long"
             field := some "isbn", value := some isbn }

/-- Modelled from the spec: the ISBN-10 checksum rule as the spec words
it — `sum(digit[i] * (10-i) for i in 0..8) + checkValue ≡ 0 (mod 11)`,
`checkValue` 10 when the last char is `X`, else its digit value — over a
cleaned string of length 10. -/
def specIsbn10CheckOk (l : List Char) : Prop :=
  l.length = 10 ∧
  ((∑ i ∈ Finset.range 9, digitVal (l.getD i ' ') * (10 - i)) +
    (if l.getD 9 ' ' = 'X' then 10 else digitVal (l.getD 9 ' '))) % 11 = 0

/-- Modelled from the spec: the ISBN-13 checksum rule as the spec words
it — weighted sum with weights 1/3 over indices 0..11, check digit
`(10 - total mod 10) mod 10` equal to digit 12. -/
def specIsbn13CheckOk (l : List Char) : Prop :=
  l.length = 13 ∧
  digitVal (l.getD 12 ' ') =
    (10 - (∑ i ∈ Finset.range 12,
      digitVal (l.getD i ' ') * (if i % 2 = 0 then 1 else 3)) % 10) % 10

/-- Python runtime values that reach the validators: integers, booleans
(which Python treats as integers), floats (modelled as exact rationals;
`int()` truncation towards zero agrees with the double semantics on the
values used here), strings and None. -/
inductive PyVal
  | intVal (n : Int)
  | boolVal (b : Bool)
  | floatVal (q : Rat)
  | strVal (s : String)
  | noneVal
deriving DecidableEq, Repr

/-- Result of `isinstance(value, int)`: true for int and for bool, a
subclass of int in Python. -/
def isinstance_int : PyVal → Bool
  | .intVal _ => true
  | .boolVal _ => true
  | _ => false

/-- Integer carried by an int-like value (True counts as 1, False
as 0); unused constructors return 0 and are never consulted. -/
def pyIntValue : PyVal → Int
  | .intVal n => n
  | .boolVal b => if b then 1 else 0
  | _ => 0

/-- String rendering of a value, for error payloads. -/
def pyValRepr : PyVal → String
  | .intVal n => toString n
  | .boolVal true => "True"
  | .boolVal false => "False"
  | .floatVal q => toString q
  | .strVal s => s
  | .noneVal => "None"

/-- Python truthiness test `not value` for the values modelled. -/
def pyFalsy : PyVal → Bool
  | .intVal n => n == 0
  | .boolVal b => !b
  | .floatVal q => q == 0
  | .strVal s => s == ""
  | .noneVal => true

/-- Function `validate_positive_integer` of `app/utils/validators.py`:
reject non-int-typed values (digit strings included — no coercion), then
values `<= 0`, else return the value unchanged. -/
def validate_positive_integer (value : PyVal) (field_name : String) :
    Except UtilValidationError PyVal :=
  if !(isinstance_int value) then
    .error { message := field_name ++ " must be an integer"
             field := some field_name, value := some (pyValRepr value) }
  else if pyIntValue value ≤ 0 then
    .error { message := field_name ++ " must be a positive integer"
             field := some field_name, value := some (pyValRepr value) }
  else .ok value

/-- Python whitespace for `int(str)` stripping. -/
def pyWs (c : Char) : Bool :=
  c = ' ' || c = '\t' || c = '\n' || c = '\r' || c = '\x0b' || c = '\x0c'

/-- Strip leading and trailing whitespace. -/
def trimWs (l : List Char) : List Char :=
  ((l.dropWhile pyWs).reverse.dropWhile pyWs).reverse

/-- Value of a nonempty digit string. -/
def digitsVal (l : List Char) : Nat :=
  l.foldl (fun acc c => acc * 10 + digitVal c) 0

/-- Result of Python `int(s)` on a string: optional surrounding
whitespace, optional sign, then a nonempty run of decimal digits
(the rarely used underscore grouping of numeric literals is not
modelled; no caller in this code base passes one). -/
def pyIntOfString (s : String) : Option Int :=
  match trimWs s.toList with
  | '+' :: rest =>
    if !rest.isEmpty && rest.all Char.isDigit then some (digitsVal rest) else none
  | '-' :: rest =>
    if !rest.isEmpty && rest.all Char.isDigit then some (-(digitsVal rest : Int)) else none
  | l =>
    if !l.isEmpty && l.all Char.isDigit then some (digitsVal l) else none

/-- Truncation towards zero, the behaviour of Python `int(float)`. -/
def pyTrunc (q : Rat) : Int :=
  if 0 ≤ q then q.floor else -((-q).floor)

/-- Result of Python `int(value)`: ints pass, bools collapse to 0/1,
floats truncate towards zero, strings parse or raise ValueError, None
raises TypeError. -/
def pyIntCoerce : PyVal → Except PyExc Int
  | .intVal n => .ok n
  | .boolVal b => .ok (if b then 1 else 0)
  | .floatVal q => .ok (pyTrunc q)
  | .strVal s =>
    match pyIntOfString s with
    | some n => .ok n
    | none => .error (.valueError ("invalid literal for int() with base 10: \x27" ++ s ++ "\x27"))
  | .noneVal =>
    .error (.typeError "int() argument must be a string, a bytes-like object or a real number, not \x27NoneType\x27")

/-- Error built by `app/exceptions/base.py` `ValidationError.__init__`
for the two messages `validate_id` raises: neither message holds the
keywords `format`, `length` or `invalid`, and the field names used are
nonempty, so the code is REQUIRED_FIELD_MISSING when the rejected value
is falsy and VALIDATION_ERROR otherwise; the rejected value is recorded
under `value` in details unless it is None. -/
def idValidationError (msg field_name : String) (v : PyVal) : LibraryServiceError :=
  { message := msg
    error_code := if pyFalsy v then .REQUIRED_FIELD_MISSING else .VALIDATION_ERROR
    details := if v = .noneVal then [] else [("value", pyValRepr v)]
    field := some field_name }

/-- Method `ValidationService.validate_id`
(`app/services/validation_service.py` lines 109-137): coerce with
`int(value)` — digit strings and floats are accepted, unlike the strict
`validate_positive_integer` — fail when the coercion raises
ValueError/TypeError or the coerced integer is `<= 0`, else return the
coerced integer.  (The positivity failure raised inside the `try` block
is a domain ValidationError, which `except (ValueError, TypeError)` does
not catch.) -/
def validate_id (id_value : PyVal) (field_name : String) :
    Except LibraryServiceError Int :=
  match pyIntCoerce id_value with
  | .ok n =>
    if n ≤ 0 then
      .error (idValidationError (field_name ++ " must be a positive integer") field_name id_value)
    else .ok n
  | .error _ =>
    .error (idValidationError (field_name ++ " must be a valid integer") field_name id_value)

/-- Method `BorrowingService.get_member_borrowings`
(`app/services/borrowing_service.py` lines 127-147): validate the id via
`validate_id`, then return all Borrowing rows of that member. -/
def get_member_borrowings (member_id : PyVal) (s : Store) :
    Except LibraryServiceError (List BorrowingRow) :=
  match validate_id member_id "Member ID" with
  | .error e => .error e
  | .ok mid => .ok (s.borrowings.filter (fun r => r.member_id == mid))

/-- Method `BorrowingService.get_borrowing`
(`app/services/borrowing_service.py` lines 163-186): validate the id via
`validate_id`, then return the row with that id, or None without error
when absent. -/
def get_borrowing (borrowing_id : PyVal) (s : Store) :
    Except LibraryServiceError (Option BorrowingRow) :=
  match validate_id borrowing_id "Borrowing ID" with
  | .error e => .error e
  | .ok bid => .ok (s.borrowings.find? (fun r => r.id == bid))

theorem activeCount_nil (b : Int) : activeCount [] b = 0 := rfl

theorem activeCount_cons (r : BorrowingRow) (rest : List BorrowingRow) (b : Int) :
    activeCount (r :: rest) b =
      activeCount rest b + (if r.book_id == b && r.return_date.isNone then 1 else 0) := by
  simp only [activeCount, List.filter_cons]
  split
  · simp [Nat.add_comm]
  · simp

theorem activeCount_append (l1 l2 : List BorrowingRow) (b : Int) :
    activeCount (l1 ++ l2) b = activeCount l1 b + activeCount l2 b := by
  simp [activeCount, List.filter_append]

theorem findActiveForBook_none_iff (rows : List BorrowingRow) (b : Int) :
    findActiveForBook rows b = none ↔ activeCount rows b = 0 := by
  simp [findActiveForBook, activeCount, List.find?_eq_none, List.length_eq_zero,
    List.filter_eq_nil_iff]

theorem activeCount_markReturned_le (rows : List BorrowingRow) (bid mid : Int)
    (t : Nat) (b : Int) :
    activeCount (markReturned rows bid mid t) b ≤ activeCount rows b := by
  induction rows with
  | nil => simp [markReturned]
  | cons r rest ih =>
    by_cases h : (r.book_id == bid && r.member_id == mid && r.return_date.isNone) = true
    · simp [markReturned, h, activeCount_cons]
    · simp only [markReturned, h, activeCount_cons]
      simp [activeCount_cons]
      have hle := ih
      omega

/-- Characterization of a successful `borrow_book` call: the insert
happens only after the active-borrowing check came back empty, and it
appends exactly the freshly built row. -/
theorem borrow_book_ok (b m : Int) (s : Store) (r : BorrowingRow) (s2 : Store)
    (h : borrow_book b m s = .ok (r, s2)) :
    findActiveForBook s.borrowings b = none ∧
    r = { id := s.next_id, book_id := b, member_id := m
          borrow_date := s.clock, return_date := none } ∧
    s2 = { s with borrowings := s.borrowings ++ [r]
                  next_id := s.next_id + 1, clock := s.clock + 1 } := by
  unfold borrow_book at h
  split at h
  · exact absurd h (by simp)
  · split at h
    · exact absurd h (by simp)
    · split at h
      · exact absurd h (by simp)
      · split at h
        · exact absurd h (by simp)
        · rename_i hnone _ _ _ _
          injection h with h2
          injection h2 with hr hs
          subst hr
          subst hs
          refine ⟨by assumption, rfl, rfl⟩

/-- Characterization of a successful `return_book` call. -/
theorem return_book_ok (b m : Int) (s : Store) (r : BorrowingRow) (s2 : Store)
    (h : return_book b m s = .ok (r, s2)) :
    ∃ r0, findActiveLoan s.borrowings b m = some r0 ∧
      r = { r0 with return_date := some s.clock } ∧
      s2 = { s with borrowings := markReturned s.borrowings b m s.clock
                    clock := s.clock + 1 } := by
  unfold return_book at h
  split at h
  · exact absurd h (by simp)
  · split at h
    · exact absurd h (by simp)
    · rename_i r0 hfound
      injection h with h2
      injection h2 with hr hs
      exact ⟨r0, hfound, hr.symm, hs.symm⟩

/-- One engine call preserves the one-active-loan-per-book invariant. -/
theorem applyOp_preserves_invariant (s : Store) (op : Op)
    (h : ∀ b, activeCount s.borrowings b ≤ 1) :
    ∀ b, activeCount (applyOp s op).borrowings b ≤ 1 := by
  intro b
  match op with
  | .borrow b0 m0 =>
    simp only [applyOp]
    split
    · rename_i r s2 hok
      obtain ⟨hnone, hr, hs2⟩ := borrow_book_ok b0 m0 s r s2 hok
      subst hs2
      subst hr
      rw [activeCount_append, activeCount_cons, activeCount_nil]
      by_cases hb : b0 = b
      · subst hb
        have h0 : activeCount s.borrowings b0 = 0 :=
          (findActiveForBook_none_iff s.borrowings b0).mp hnone
        simp [h0]
      · simpa [hb] using h b
    · exact h b
  | .giveBack b0 m0 =>
    simp only [applyOp]
    split
    · rename_i r s2 hok
      obtain ⟨r0, _, _, hs2⟩ := return_book_ok b0 m0 s r s2 hok
      subst hs2
      exact le_trans (activeCount_markReturned_le s.borrowings b0 m0 s.clock b) (h b)
    · exact h b

/-- Invariant propagation through a whole call sequence. -/
theorem runOps_preserves_invariant (ops : List Op) (s : Store)
    (h : ∀ b, activeCount s.borrowings b ≤ 1) :
    ∀ b, activeCount (runOps s ops).borrowings b ≤ 1 := by
  induction ops generalizing s with
  | nil => exact h
  | cons op ops ih =>
    exact ih (applyOp s op) (applyOp_preserves_invariant s op h)

/-- C1: from any store with no borrowings, every sequence of borrow and
return calls leaves at most one active Borrowing row per book id; and a
successful `borrow_book` inserts its new active row only after the query
for an existing active row of that book came back empty, appending
exactly one row. -/
theorem at_most_one_active_loan_per_book :
    (∀ (s0 : Store), s0.borrowings = [] → ∀ (ops : List Op) (b : Int),
      activeCount (runOps s0 ops).borrowings b ≤ 1) ∧
    (∀ (b m : Int) (s : Store) (r : BorrowingRow) (s2 : Store),
      borrow_book b m s = .ok (r, s2) →
      findActiveForBook s.borrowings b = none ∧
      s2.borrowings = s.borrowings ++ [r]) := by
  constructor
  · intro s0 h0 ops b
    refine runOps_preserves_invariant ops s0 (fun b2 => ?_) b
    rw [h0, activeCount_nil]
    exact Nat.zero_le 1
  · intro b m s r s2 hok
    obtain ⟨hnone, _, hs2⟩ := borrow_book_ok b m s r s2 hok
    exact ⟨hnone, by rw [hs2]⟩

theorem at_most_one_active_loan_per_book_witness :
    activeCount
      (runOps demoStore [Op.borrow 1 1, Op.giveBack 1 1, Op.borrow 1 2]).borrowings 1 ≤ 1 ∧
    (findActiveForBook demoStore.borrowings 1 = none ∧
      demoStore2.borrowings = demoStore.borrowings ++ [demoRow]) :=
  ⟨at_most_one_active_loan_per_book.1 demoStore rfl [Op.borrow 1 1, Op.giveBack 1 1, Op.borrow 1 2] 1,
    at_most_one_active_loan_per_book.2 1 1 demoStore demoRow demoStore2 rfl⟩

/-- C2 (amended): when the book and the borrowing member exist and some
active borrowing for the book is on record, `borrow_book` fails with the
plain `ValueError "Book is already borrowed"` — not a domain error of
kind conflict — which the gRPC servicer surfaces as INVALID_ARGUMENT with
that message as the whole details string (the holder's member id reaches
only the warning log), and the store is left unchanged, so no new
Borrowing row is created. -/
theorem borrow_already_borrowed_behaviour (s : Store) (b m2 : Int)
    (hb : 0 < b) (hm2 : 0 < m2)
    (hbook : (findBook s b).isSome) (hmem : (findMember s m2).isSome)
    (hactive : (findActiveForBook s.borrowings b).isSome) :
    borrow_book b m2 s = .error (.valueError "Book is already borrowed") ∧
    BorrowBook b m2 s = (.error (.INVALID_ARGUMENT, "Book is already borrowed"), s) := by
  obtain ⟨bk, hbk⟩ := Option.isSome_iff_exists.mp hbook
  obtain ⟨mm, hmm⟩ := Option.isSome_iff_exists.mp hmem
  obtain ⟨ar, har⟩ := Option.isSome_iff_exists.mp hactive
  have hcond : ¬(b ≤ 0 ∨ m2 ≤ 0) := by omega
  have hsvc : borrow_book b m2 s = .error (.valueError "Book is already borrowed") := by
    unfold borrow_book
    rw [if_neg hcond, hbk, hmm, har]
  refine ⟨hsvc, ?_⟩
  unfold BorrowBook
  rw [hsvc]
  rfl

theorem borrow_already_borrowed_behaviour_witness :
    (findActiveForBook demoStore2.borrowings 1).isSome = true ∧
    (borrow_book 1 2 demoStore2 = .error (.valueError "Book is already borrowed") ∧
      BorrowBook 1 2 demoStore2 =
        (.error (.INVALID_ARGUMENT, "Book is already borrowed"), demoStore2)) :=
  ⟨rfl, borrow_already_borrowed_behaviour demoStore2 1 2 (by decide) (by decide) rfl rfl rfl⟩

/-- C2 counterexample: with book 1 and members 1, 2 present, after
`borrow(1, 1)` succeeds, `borrow(1, 2)` fails — but with a raw
`ValueError` surfaced over gRPC as INVALID_ARGUMENT, not with the
conflict kind (whose status would be ABORTED), and its details string
"Book is already borrowed" holds no digit, hence does not identify
member 1 as the current holder. -/
theorem borrow_conflict_kind_refuted :
    borrow_book 1 1 demoStore = .ok (demoRow, demoStore2) ∧
    borrow_book 1 2 demoStore2 = .error (.valueError "Book is already borrowed") ∧
    BorrowBook 1 2 demoStore2 =
      (.error (.INVALID_ARGUMENT, "Book is already borrowed"), demoStore2) ∧
    StatusCode.INVALID_ARGUMENT ≠ ERROR_CODE_TO_GRPC_STATUS ErrorCode.CONFLICT ∧
    ("Book is already borrowed").toList.all (fun c => !c.isDigit) = true :=
  ⟨rfl, rfl, rfl, by decide, by decide⟩

/-- C3 (amended): borrowing a book whose id is absent from the store
fails with the plain `ValueError "Book not found"` — not a domain error
of kind resource_not_found — surfaced over gRPC as INVALID_ARGUMENT, and
the store is left unchanged (no Borrowing row is created, nothing is
mutated before the failure). -/
theorem borrow_book_not_found_behaviour (s : Store) (b m : Int)
    (hb : 0 < b) (hm : 0 < m) (hnone : findBook s b = none) :
    borrow_book b m s = .error (.valueError "Book not found") ∧
    BorrowBook b m s = (.error (.INVALID_ARGUMENT, "Book not found"), s) := by
  have hcond : ¬(b ≤ 0 ∨ m ≤ 0) := by omega
  have hsvc : borrow_book b m s = .error (.valueError "Book not found") := by
    unfold borrow_book
    rw [if_neg hcond, hnone]
  refine ⟨hsvc, ?_⟩
  unfold BorrowBook
  rw [hsvc]
  rfl

theorem borrow_book_not_found_behaviour_witness :
    findBook demoStore 999 = none ∧
    (borrow_book 999 1 demoStore = .error (.valueError "Book not found") ∧
      BorrowBook 999 1 demoStore =
        (.error (.INVALID_ARGUMENT, "Book not found"), demoStore)) :=
  ⟨rfl, borrow_book_not_found_behaviour demoStore 999 1 (by decide) (by decide) rfl⟩

/-- C3 counterexample: `borrow(999, 1)` against a store holding book 1
and member 1 but no book 999 fails with gRPC status INVALID_ARGUMENT and
details "Book not found", and INVALID_ARGUMENT differs from NOT_FOUND,
the status of the resource_not_found kind; the store part of the claim
(left unchanged) does hold. -/
theorem borrow_not_found_kind_refuted :
    BorrowBook 999 1 demoStore =
      (.error (.INVALID_ARGUMENT, "Book not found"), demoStore) ∧
    StatusCode.INVALID_ARGUMENT ≠ ERROR_CODE_TO_GRPC_STATUS ErrorCode.RESOURCE_NOT_FOUND :=
  ⟨rfl, by decide⟩

theorem findActiveLoan_none_iff (rows : List BorrowingRow) (b m : Int) :
    findActiveLoan rows b m = none ↔ activeLoanCount rows b m = 0 := by
  simp [findActiveLoan, activeLoanCount, List.find?_eq_none, List.length_eq_zero,
    List.filter_eq_nil_iff]

/-- Marking the unique active (book, member) loan as returned leaves no
active loan for that pair behind. -/
theorem findActiveLoan_markReturned_none (rows : List BorrowingRow) (b m : Int) (t : Nat)
    (h : activeLoanCount rows b m ≤ 1) :
    findActiveLoan (markReturned rows b m t) b m = none := by
  induction rows with
  | nil => rfl
  | cons r rest ih =>
    by_cases hr : (r.book_id == b && r.member_id == m && r.return_date.isNone) = true
    · have hrest : activeLoanCount rest b m = 0 := by
        simp only [activeLoanCount, List.filter_cons, hr, if_true, List.length_cons] at h ⊢
        omega
      have hnone : findActiveLoan rest b m = none :=
        (findActiveLoan_none_iff rest b m).mpr hrest
      simp only [markReturned, hr, if_true]
      simp [findActiveLoan] at hnone ⊢
      intro x hx
      exact hnone x hx
    · rw [Bool.not_eq_true] at hr
      have h2 : activeLoanCount rest b m ≤ 1 := by
        simp only [activeLoanCount, List.filter_cons, hr, Bool.false_eq_true,
          if_false] at h ⊢
        exact h
      have hnone := ih h2
      simp only [markReturned, hr, Bool.false_eq_true, if_false]
      simp only [findActiveLoan] at hnone ⊢
      rw [List.find?_cons_of_neg _ (by simp [hr]), hnone]

/-- C4 (amended): for positive ids, `return_book` fails — with the plain
`ValueError "No active borrowing found for this book and member"`,
surfaced over gRPC as INVALID_ARGUMENT, not with a domain error of kind
operation_not_allowed — exactly when no Borrowing row with this book id,
this member id and null `return_date` exists (so returning with the wrong
member id fails the same way); otherwise it sets `return_date` on the
first such row and returns it; and, when at most one active row exists
for the pair, a second consecutive return fails the same way. -/
theorem return_book_behaviour (s : Store) (b m : Int) (hb : 0 < b) (hm : 0 < m) :
    (findActiveLoan s.borrowings b m = none →
      return_book b m s =
        .error (.valueError "No active borrowing found for this book and member") ∧
      ReturnBook b m s =
        (.error (.INVALID_ARGUMENT, "No active borrowing found for this book and member"), s)) ∧
    (∀ r0, findActiveLoan s.borrowings b m = some r0 →
      return_book b m s =
        .ok ({ r0 with return_date := some s.clock },
          { s with borrowings := markReturned s.borrowings b m s.clock
                   clock := s.clock + 1 })) ∧
    (activeLoanCount s.borrowings b m ≤ 1 →
      ∀ r s2, return_book b m s = .ok (r, s2) →
        return_book b m s2 =
          .error (.valueError "No active borrowing found for this book and member")) := by
  have hcond : ¬(b ≤ 0 ∨ m ≤ 0) := by omega
  refine ⟨?_, ?_, ?_⟩
  · intro hnone
    have hsvc : return_book b m s =
        .error (.valueError "No active borrowing found for this book and member") := by
      unfold return_book
      rw [if_neg hcond, hnone]
    refine ⟨hsvc, ?_⟩
    unfold ReturnBook
    rw [hsvc]
  · intro r0 hsome
    unfold return_book
    rw [if_neg hcond, hsome]
  · intro hcount r s2 hok
    obtain ⟨r0, h0, hr, hs2⟩ := return_book_ok b m s r s2 hok
    subst hs2
    have hafter : findActiveLoan (markReturned s.borrowings b m s.clock) b m = none :=
      findActiveLoan_markReturned_none s.borrowings b m s.clock hcount
    unfold return_book
    rw [if_neg hcond]
    dsimp only
    rw [hafter]

theorem return_book_behaviour_witness :
    findActiveLoan demoStore.borrowings 1 1 = none ∧
    (return_book 1 1 demoStore =
      .error (.valueError "No active borrowing found for this book and member") ∧
    ReturnBook 1 1 demoStore =
      (.error (.INVALID_ARGUMENT, "No active borrowing found for this book and member"),
        demoStore)) :=
  ⟨rfl, (return_book_behaviour demoStore 1 1 (by decide) (by decide)).1 rfl⟩

/-- C4 counterexample: with no active borrowing for the pair (1, 1), the
return call fails over gRPC with INVALID_ARGUMENT, which differs from
FAILED_PRECONDITION, the status of the operation_not_allowed kind: the
failure is a raw `ValueError`, not an operation_not_allowed domain
error. -/
theorem return_not_allowed_kind_refuted :
    ReturnBook 1 1 demoStore =
      (.error (.INVALID_ARGUMENT, "No active borrowing found for this book and member"),
        demoStore) ∧
    StatusCode.INVALID_ARGUMENT ≠ ERROR_CODE_TO_GRPC_STATUS ErrorCode.OPERATION_NOT_ALLOWED :=
  ⟨rfl, by decide⟩

/-- Rows among which no row at all belongs to the (book, member) pair
hold no active loan for the pair. -/
theorem findActiveLoan_none_of_rowsFor_nil (rows : List BorrowingRow) (b m : Int)
    (h : rowsFor rows b m = []) : findActiveLoan rows b m = none := by
  simp only [rowsFor, List.filter_eq_nil_iff] at h
  simp only [findActiveLoan, List.find?_eq_none]
  intro r hr hpred
  refine h r hr ?_
  simp only [Bool.and_eq_true] at hpred ⊢
  exact hpred.1

/-- Marking skips over a prefix holding no active loan for the pair. -/
theorem markReturned_append_none (l1 l2 : List BorrowingRow) (b m : Int) (t : Nat)
    (h : findActiveLoan l1 b m = none) :
    markReturned (l1 ++ l2) b m t = l1 ++ markReturned l2 b m t := by
  induction l1 with
  | nil => rfl
  | cons r rest ih =>
    simp only [findActiveLoan, List.find?_eq_none, List.mem_cons] at h
    have hr : (r.book_id == b && r.member_id == m && r.return_date.isNone) = false :=
      Bool.eq_false_iff.mpr (h r (Or.inl rfl))
    rw [List.cons_append]
    simp only [markReturned, hr, Bool.false_eq_true, if_false, List.cons_append]
    congr 1
    refine ih ?_
    simp only [findActiveLoan, List.find?_eq_none]
    intro x hx
    exact h x (Or.inr hx)

/-- C5 (amended): for existing book `b` and members `m`, `m2`, starting
from a store with no Borrowing row at all for the pair (b, m) and no
active loan for `b`, `borrow(b, m)` then `return(b, m)` both succeed,
leave exactly one Borrowing row for (b, m) — the returned one, with
`return_date` set — leave no active loan for `b`, and a subsequent
`borrow(b, m2)` succeeds.  (When the store already holds historical,
returned rows for (b, m) the sequence still succeeds, but the row count
for the pair exceeds one — see the counterexample.) -/
theorem borrow_return_roundtrip (s : Store) (b m m2 : Int)
    (hb : 0 < b) (hm : 0 < m) (hm2 : 0 < m2)
    (hbook : (findBook s b).isSome)
    (hmem : (findMember s m).isSome)
    (hmem2 : (findMember s m2).isSome)
    (hnorow : rowsFor s.borrowings b m = [])
    (hnoactive : findActiveForBook s.borrowings b = none) :
    ∃ r1 s1 r2 s2,
      borrow_book b m s = .ok (r1, s1) ∧
      return_book b m s1 = .ok (r2, s2) ∧
      rowsFor s2.borrowings b m = [r2] ∧
      r2.return_date.isSome = true ∧
      findActiveForBook s2.borrowings b = none ∧
      ∃ r3 s3, borrow_book b m2 s2 = .ok (r3, s3) := by
  obtain ⟨bk, hbk⟩ := Option.isSome_iff_exists.mp hbook
  obtain ⟨mm, hmm⟩ := Option.isSome_iff_exists.mp hmem
  obtain ⟨mm2, hmm2⟩ := Option.isSome_iff_exists.mp hmem2
  have hcond : ¬(b ≤ 0 ∨ m ≤ 0) := by omega
  have hcond2 : ¬(b ≤ 0 ∨ m2 ≤ 0) := by omega
  set r1 : BorrowingRow :=
    { id := s.next_id, book_id := b, member_id := m
      borrow_date := s.clock, return_date := none } with hr1
  set s1 : Store :=
    { s with borrowings := s.borrowings ++ [r1]
             next_id := s.next_id + 1, clock := s.clock + 1 } with hs1
  have hstep1 : borrow_book b m s = .ok (r1, s1) := by
    unfold borrow_book
    rw [if_neg hcond, hbk, hmm, hnoactive]
  have hnol : findActiveLoan s.borrowings b m = none :=
    findActiveLoan_none_of_rowsFor_nil _ _ _ hnorow
  have hpred1 : (r1.book_id == b && r1.member_id == m && r1.return_date.isNone) = true := by
    simp [hr1]
  have hfind1 : findActiveLoan s1.borrowings b m = some r1 := by
    show findActiveLoan (s.borrowings ++ [r1]) b m = some r1
    unfold findActiveLoan at hnol ⊢
    rw [List.find?_append, hnol, Option.none_or]
    exact List.find?_cons_of_pos _ hpred1
  set r2 : BorrowingRow := { r1 with return_date := some s1.clock } with hr2
  set s2 : Store :=
    { s1 with borrowings := markReturned s1.borrowings b m s1.clock
              clock := s1.clock + 1 } with hs2
  have hstep2 : return_book b m s1 = .ok (r2, s2) := by
    unfold return_book
    rw [if_neg hcond, hfind1]
  have hmark : markReturned s1.borrowings b m s1.clock = s.borrowings ++ [r2] := by
    show markReturned (s.borrowings ++ [r1]) b m s1.clock = _
    rw [markReturned_append_none _ _ _ _ _ hnol]
    congr 1
    simp [markReturned, hpred1, hr2]
  have hrows2 : rowsFor s2.borrowings b m = [r2] := by
    show rowsFor (markReturned s1.borrowings b m s1.clock) b m = [r2]
    rw [hmark]
    unfold rowsFor at hnorow ⊢
    rw [List.filter_append, hnorow]
    simp [hr2, hr1]
  have hnoact2 : findActiveForBook s2.borrowings b = none := by
    show findActiveForBook (markReturned s1.borrowings b m s1.clock) b = none
    rw [hmark]
    unfold findActiveForBook at hnoactive ⊢
    rw [List.find?_append, hnoactive, Option.none_or]
    simp [hr2]
  have hbk2 : findBook s2 b = some bk := hbk
  have hmm3 : findMember s2 m2 = some mm2 := hmm2
  have hstep3 : borrow_book b m2 s2 =
      .ok ({ id := s2.next_id, book_id := b, member_id := m2
             borrow_date := s2.clock, return_date := none },
        { s2 with
            borrowings := s2.borrowings ++
              [{ id := s2.next_id, book_id := b, member_id := m2
                 borrow_date := s2.clock, return_date := none }]
            next_id := s2.next_id + 1
            clock := s2.clock + 1 }) := by
    unfold borrow_book
    rw [if_neg hcond2, hbk2, hmm3, hnoact2]
  exact ⟨r1, s1, r2, s2, hstep1, hstep2, hrows2, by simp [hr2], hnoact2, _, _, hstep3⟩

theorem borrow_return_roundtrip_witness :
    rowsFor demoStore.borrowings 1 1 = [] ∧
    (∃ r1 s1 r2 s2,
      borrow_book 1 1 demoStore = .ok (r1, s1) ∧
      return_book 1 1 s1 = .ok (r2, s2) ∧
      rowsFor s2.borrowings 1 1 = [r2] ∧
      r2.return_date.isSome = true ∧
      findActiveForBook s2.borrowings 1 = none ∧
      ∃ r3 s3, borrow_book 1 2 s2 = .ok (r3, s3)) :=
  ⟨rfl, borrow_return_roundtrip demoStore 1 1 2 (by decide) (by decide) (by decide)
    rfl rfl rfl rfl rfl⟩

/-- C5 counterexample: from a state with no active loan for book 1 but
one historical returned row for the pair (1, 1), the borrow/return
round trip succeeds yet leaves two Borrowing rows for (1, 1), not
exactly one: the claim's universal quantification over states with
merely "no active loan for b" fails. -/
theorem roundtrip_exactly_one_row_refuted :
    findActiveForBook histStore.borrowings 1 = none ∧
    borrow_book 1 1 histStore =
      .ok ({ id := 2, book_id := 1, member_id := 1, borrow_date := 1, return_date := none },
        histStore2) ∧
    return_book 1 1 histStore2 =
      .ok ({ id := 2, book_id := 1, member_id := 1, borrow_date := 1, return_date := some 2 },
        histStore3) ∧
    (rowsFor histStore3.borrowings 1 1).length = 2 :=
  ⟨rfl, rfl, rfl, rfl⟩

/-- C7 (amended): `ErrorHandler.handle_exception` wraps every exception
that is not a `LibraryServiceError` as an INTERNAL_ERROR domain error,
keeping the original message inside the new message and the original type
name under `original_type` in details, and mapping that wrapped error
yields gRPC INTERNAL and HTTP 500 (the REST handler path).  The gRPC
servicer's generic branch, however, sets the transport status from
`map_generic_exception_to_grpc_status` applied to the raw exception,
which yields INVALID_ARGUMENT — not INTERNAL — for ValueError, KeyError,
TypeError and AttributeError, and INTERNAL only for other types. -/
theorem generic_exception_pipeline :
    (∀ e : PyExc, e.isLibraryError = false →
      (handle_exception e).error_code = .INTERNAL_ERROR ∧
      (handle_exception e).message = "Unexpected error: " ++ e.msgOf ∧
      (handle_exception e).details = [("original_type", e.typeNameOf)] ∧
      (map_exception_to_grpc_status (handle_exception e)).1 = .INTERNAL ∧
      map_to_http_status (handle_exception e).error_code = 500) ∧
    (∀ msg, (map_generic_exception_to_grpc_status (.valueError msg)).1 = .INVALID_ARGUMENT) ∧
    (∀ msg, (map_generic_exception_to_grpc_status (.keyError msg)).1 = .INVALID_ARGUMENT) ∧
    (∀ msg, (map_generic_exception_to_grpc_status (.typeError msg)).1 = .INVALID_ARGUMENT) ∧
    (∀ msg, (map_generic_exception_to_grpc_status (.attributeError msg)).1 = .INVALID_ARGUMENT) ∧
    (∀ t msg, (map_generic_exception_to_grpc_status (.otherError t msg)).1 = .INTERNAL) := by
  refine ⟨?_, fun _ => rfl, fun _ => rfl, fun _ => rfl, fun _ => rfl, fun _ _ => rfl⟩
  intro e h
  cases e with
  | libraryError e => exact absurd h (by simp [PyExc.isLibraryError])
  | valueError m => exact ⟨rfl, rfl, rfl, rfl, rfl⟩
  | keyError m => exact ⟨rfl, rfl, rfl, rfl, rfl⟩
  | typeError m => exact ⟨rfl, rfl, rfl, rfl, rfl⟩
  | attributeError m => exact ⟨rfl, rfl, rfl, rfl, rfl⟩
  | otherError t m => exact ⟨rfl, rfl, rfl, rfl, rfl⟩

theorem generic_exception_pipeline_witness :
    (PyExc.valueError "boom").isLibraryError = false ∧
    ((handle_exception (.valueError "boom")).error_code = .INTERNAL_ERROR ∧
      (handle_exception (.valueError "boom")).message = "Unexpected error: " ++ "boom" ∧
      (handle_exception (.valueError "boom")).details = [("original_type", "ValueError")] ∧
      (map_exception_to_grpc_status (handle_exception (.valueError "boom"))).1 = .INTERNAL ∧
      map_to_http_status (handle_exception (.valueError "boom")).error_code = 500) :=
  ⟨rfl, generic_exception_pipeline.1 (.valueError "boom") rfl⟩

/-- C7 counterexample: a raw ValueError — here the "Book not found" one
the borrowing service raises — is wrapped as INTERNAL_ERROR by
`handle_exception`, yet the gRPC servicer's generic branch reports
INVALID_ARGUMENT for it, not the INTERNAL status of the internal_error
kind the claim predicts. -/
theorem generic_exception_internal_status_refuted :
    (handle_exception (.valueError "Book not found")).error_code = .INTERNAL_ERROR ∧
    map_generic_exception_to_grpc_status (.valueError "Book not found") =
      (.INVALID_ARGUMENT, "Book not found") ∧
    BorrowBook 999 1 demoStore = (.error (.INVALID_ARGUMENT, "Book not found"), demoStore) ∧
    StatusCode.INVALID_ARGUMENT ≠ StatusCode.INTERNAL :=
  ⟨rfl, rfl, rfl, by decide⟩

/-- C6: for every domain error kind of the spec's taxonomy, the code's
gRPC mapping (`ERROR_CODE_TO_GRPC_STATUS`) yields exactly the status of the
spec's RPC table and the code's HTTP mapping
(`ErrorHandler._map_to_http_status`) yields exactly the status of the
spec's HTTP table; both mappings are total functions over the kind set. -/
theorem error_mapping_tables_agree_with_spec :
    ∀ k : SpecKind,
      ERROR_CODE_TO_GRPC_STATUS k.toErrorCode = k.rpcStatus ∧
      map_to_http_status k.toErrorCode = k.httpStatus := by
  intro k
  cases k <;> exact ⟨rfl, rfl⟩

/-- Summation bridge: the Python accumulation loop over `range(n)`
equals the spec's indexed sum. -/
theorem foldl_range_sum (f : Nat → Nat) (n : Nat) :
    (List.range n).foldl (fun total i => total + f i) 0 = ∑ i ∈ Finset.range n, f i := by
  induction n with
  | zero => rfl
  | succ k ih =>
    rw [List.range_succ, List.foldl_append, ih, Finset.sum_range_succ]
    rfl

/-- Refinement of the code's ISBN-10 check-digit loop by the spec's
checksum formula. -/
theorem isbn10_check_spec (l : List Char) :
    isbn10CheckDigitOk l = true ↔ specIsbn10CheckOk l := by
  unfold isbn10CheckDigitOk specIsbn10CheckOk
  by_cases hlen : l.length = 10
  · simp [hlen, foldl_range_sum]
  · simp [hlen]

/-- Refinement of the code's ISBN-13 check-digit loop by the spec's
checksum formula. -/
theorem isbn13_check_spec (l : List Char) :
    isbn13CheckDigitOk l = true ↔ specIsbn13CheckOk l := by
  unfold isbn13CheckDigitOk specIsbn13CheckOk
  by_cases hlen : l.length = 13
  · simp [hlen, foldl_range_sum]
  · simp [hlen]

/-- C8 (amended): `validate_isbn` strips hyphens/whitespace; a cleaned
length of 10 succeeds exactly under the code's digits-with-optional-X
format and the spec's ISBN-10 checksum rule; a cleaned length of 13
exactly under all-digits and the spec's ISBN-13 checksum rule; every
other nonempty input fails with the wrong-length error, while the empty
string passes through unchanged (the optional-field pass-through that
the claim's "any other length fails" overlooks); and the spec's four
examples behave as stated. -/
theorem validate_isbn_behaviour :
    (∀ isbn : String, isbn ≠ "" → (cleanedIsbn isbn).length ≠ 10 →
      (cleanedIsbn isbn).length ≠ 13 →
      validate_isbn isbn =
        .error { message := "ISBN must be 10 or 13 digits long"
                 field := some "isbn", value := some isbn }) ∧
    (∀ isbn : String, (cleanedIsbn isbn).length = 10 →
      (validate_isbn isbn = .ok (cleanedIsbn isbn) ↔
        (isbn10FormatOk (cleanedIsbn isbn).toList = true ∧
          specIsbn10CheckOk (cleanedIsbn isbn).toList))) ∧
    (∀ isbn : String, (cleanedIsbn isbn).length = 13 →
      (validate_isbn isbn = .ok (cleanedIsbn isbn) ↔
        (strIsDigit (cleanedIsbn isbn).toList = true ∧
          specIsbn13CheckOk (cleanedIsbn isbn).toList))) ∧
    validate_isbn "0-7475-3269-9" = .ok "0747532699" ∧
    validate_isbn "978-0-7475-3269-9" = .ok "9780747532699" ∧
    validate_isbn "0-7475-3269-0" =
      .error { message := "Invalid ISBN-10 check digit"
               field := some "isbn", value := some "0-7475-3269-0" } ∧
    validate_isbn "123456789" =
      .error { message := "ISBN must be 10 or 13 digits long"
               field := some "isbn", value := some "123456789" } := by
  refine ⟨?_, ?_, ?_, rfl, rfl, rfl, rfl⟩
  · intro isbn hne h10 h13
    unfold validate_isbn
    rw [if_neg hne, if_neg h10, if_neg h13]
  · intro isbn h10
    have hne : isbn ≠ "" := by
      intro he
      rw [he] at h10
      exact absurd h10 (by decide)
    unfold validate_isbn
    rw [if_neg hne, if_pos h10]
    by_cases hfmt : isbn10FormatOk (cleanedIsbn isbn).data = true
    · by_cases hchk : isbn10CheckDigitOk (cleanedIsbn isbn).data = true
      · simp [hfmt, hchk, ← isbn10_check_spec]
      · simp [hfmt, hchk, ← isbn10_check_spec]
    · simp [hfmt, ← isbn10_check_spec]
  · intro isbn h13
    have hne : isbn ≠ "" := by
      intro he
      rw [he] at h13
      exact absurd h13 (by decide)
    have h10 : (cleanedIsbn isbn).length ≠ 10 := by omega
    unfold validate_isbn
    rw [if_neg hne, if_neg h10, if_pos h13]
    by_cases hdig : strIsDigit (cleanedIsbn isbn).data = true
    · by_cases hchk : isbn13CheckDigitOk (cleanedIsbn isbn).data = true
      · simp [hdig, hchk, ← isbn13_check_spec]
      · simp [hdig, hchk, ← isbn13_check_spec]
    · simp [hdig, ← isbn13_check_spec]

theorem validate_isbn_behaviour_witness :
    "123456789" ≠ "" ∧ (cleanedIsbn "123456789").length ≠ 10 ∧
    (cleanedIsbn "123456789").length ≠ 13 ∧
    validate_isbn "123456789" =
      .error { message := "ISBN must be 10 or 13 digits long"
               field := some "isbn", value := some "123456789" } :=
  ⟨by decide, by decide, by decide,
    validate_isbn_behaviour.1 "123456789" (by decide) (by decide) (by decide)⟩

/-- C8 counterexample: the empty ISBN, whose cleaned length is neither
10 nor 13, does not fail: `validate_isbn` returns it unchanged (the
optional field passes through), contradicting the claim's "any other
length fails". -/
theorem isbn_empty_length_refuted :
    validate_isbn "" = .ok "" ∧
    (cleanedIsbn "").length ≠ 10 ∧ (cleanedIsbn "").length ≠ 13 :=
  ⟨rfl, by decide, by decide⟩

/-- C9: `validate_positive_integer` fails on every value that is not of
Python integer type — digit strings such as "42" included, which are
rejected rather than coerced — fails on every integer `<= 0`, and
returns positive integers unchanged; in particular on "42", 0, -1 and
42 it behaves as the spec's examples state. -/
theorem validate_positive_integer_behaviour :
    (∀ (v : PyVal) (fn : String), isinstance_int v = false →
      validate_positive_integer v fn =
        .error { message := fn ++ " must be an integer"
                 field := some fn, value := some (pyValRepr v) }) ∧
    (∀ (n : Int) (fn : String), n ≤ 0 →
      validate_positive_integer (.intVal n) fn =
        .error { message := fn ++ " must be a positive integer"
                 field := some fn, value := some (pyValRepr (.intVal n)) }) ∧
    (∀ (n : Int) (fn : String), 0 < n →
      validate_positive_integer (.intVal n) fn = .ok (.intVal n)) ∧
    validate_positive_integer (.strVal "42") "id" =
      .error { message := "id must be an integer", field := some "id", value := some "42" } ∧
    validate_positive_integer (.intVal 0) "id" =
      .error { message := "id must be a positive integer", field := some "id", value := some "0" } ∧
    validate_positive_integer (.intVal (-1)) "id" =
      .error { message := "id must be a positive integer", field := some "id", value := some "-1" } ∧
    validate_positive_integer (.intVal 42) "id" = .ok (.intVal 42) := by
  refine ⟨?_, ?_, ?_, rfl, rfl, rfl, rfl⟩
  · intro v fn h
    unfold validate_positive_integer
    rw [h]
    rfl
  · intro n fn h
    simp [validate_positive_integer, isinstance_int, pyIntValue, h]
  · intro n fn h
    simp [validate_positive_integer, isinstance_int, pyIntValue]
    omega

theorem validate_positive_integer_behaviour_witness :
    isinstance_int (.strVal "42") = false ∧ (-1 : Int) ≤ 0 ∧ (0 : Int) < 42 ∧
    validate_positive_integer (.strVal "42") "id" =
      .error { message := "id must be an integer", field := some "id", value := some "42" } ∧
    validate_positive_integer (.intVal (-1)) "id" =
      .error { message := "id must be a positive integer", field := some "id", value := some "-1" } ∧
    validate_positive_integer (.intVal 42) "id" = .ok (.intVal 42) :=
  ⟨rfl, by decide, by decide,
    validate_positive_integer_behaviour.1 (.strVal "42") "id" rfl,
    validate_positive_integer_behaviour.2.1 (-1) "id" (by decide),
    validate_positive_integer_behaviour.2.2.1 42 "id" (by decide)⟩

/-- C10: `ValidationService.validate_id`, used by the read operations
`get_member_borrowings` and `get_borrowing`, coerces rather than
rejects: it succeeds with value `n` exactly when Python `int(value)`
yields `n > 0` — so the digit string "42" yields 42 and the float 42.7
truncates to 42, both of which the strict `validate_positive_integer`
would reject — and the two read operations therefore accept the numeric
string "42". -/
theorem validate_id_coerces :
    (∀ (v : PyVal) (fn : String) (n : Int),
      validate_id v fn = .ok n ↔ (pyIntCoerce v = .ok n ∧ 0 < n)) ∧
    validate_id (.strVal "42") "Member ID" = .ok 42 ∧
    validate_id (.floatVal (42.7 : Rat)) "id" = .ok 42 ∧
    validate_positive_integer (.strVal "42") "id" =
      .error { message := "id must be an integer", field := some "id", value := some "42" } ∧
    validate_positive_integer (.floatVal (42.7 : Rat)) "id" =
      .error { message := "id must be an integer", field := some "id"
               value := some (pyValRepr (.floatVal (42.7 : Rat))) } ∧
    (∀ s : Store, get_member_borrowings (.strVal "42") s =
      .ok (s.borrowings.filter (fun r => r.member_id == 42))) ∧
    (∀ s : Store, get_borrowing (.strVal "42") s =
      .ok (s.borrowings.find? (fun r => r.id == 42))) := by
  have ht : pyTrunc (42.7 : Rat) = 42 := by
    have h : (42.7 : Rat) = 427 / 10 := by norm_num
    have hf : Rat.floor (427 / 10 : Rat) = 42 := by
      have h2 : ⌊(427 / 10 : ℚ)⌋ = 42 := Int.floor_eq_iff.mpr (by norm_num)
      exact h2
    rw [pyTrunc, h, if_pos (by positivity), hf]
  refine ⟨?_, rfl, ?_, rfl, rfl, fun s => rfl, fun s => rfl⟩
  · intro v fn n
    unfold validate_id
    cases hc : pyIntCoerce v with
    | error e => simp
    | ok k =>
      dsimp only
      by_cases hk : k ≤ 0
      · rw [if_pos hk]
        constructor
        · intro h
          exact Except.noConfusion h
        · rintro ⟨h1, h2⟩
          injection h1 with h1
          subst h1
          exact absurd h2 (by omega)
      · rw [if_neg hk]
        constructor
        · intro h
          injection h with h
          subst h
          exact ⟨rfl, by omega⟩
        · rintro ⟨h1, h2⟩
          injection h1 with h1
          rw [h1]
  · simp [validate_id, pyIntCoerce, ht]

end Library
